import Mathlib

/-!
Verification of the event-sourced regulation core of the Sandys_Law
repository: shallow embedding of `shared/events.py`, `shared/memory.py`,
`a7do/background_core/core.py`, `a7do/cognition/boundary.py` and
`a7do/cognition/preference.py`, followed by theorems about the claims
of the specification.

Python floats are embedded as rationals; Python dict payloads as
association lists over a Python-value type; the SQLite event table as a
list of rows whose sequence numbers are positional (seq of the i-th row
is i+1, matching an append-only AUTOINCREMENT key).
-/

namespace SandysLaw

/-- Python values as they occur in event payloads (`payload: Dict[str, Any]`):
`None`, booleans, ints, floats, strings, lists, tuples and string-keyed dicts. -/
inductive PyVal where
  | vnone : PyVal
  | vbool : Bool → PyVal
  | vint : Int → PyVal
  | vfloat : ℚ → PyVal
  | vstr : String → PyVal
  | vlist : List PyVal → PyVal
  | vtuple : List PyVal → PyVal
  | vdict : List (String × PyVal) → PyVal
  deriving Repr

/-- `dict.get(key, default)` on a string-keyed association list. -/
def dictGet (kvs : List (String × PyVal)) (k : String) (dflt : PyVal) : PyVal :=
  match kvs.find? (fun kv => kv.1 == k) with
  | some kv => kv.2
  | none => dflt

/-- Event types from `shared/events.py` (`class EventType(str, Enum)`). -/
inductive EventType where
  | observation
  | action
  | outcome
  | internal
  | system
  deriving DecidableEq, Repr

/-- `EventType.value`: the string value of the enum member. -/
def EventType.value : EventType → String
  | .observation => "observation"
  | .action => "action"
  | .outcome => "outcome"
  | .internal => "internal"
  | .system => "system"

/-- `EventType(s)`: enum lookup from the stored string (total on stored rows,
which always hold a `value` of some member). -/
def EventType.ofValue (s : String) : EventType :=
  if s = "observation" then .observation
  else if s = "action" then .action
  else if s = "outcome" then .outcome
  else if s = "internal" then .internal
  else .system

/-- The canonical event object of `shared/events.py`. -/
structure Event where
  type : EventType
  source : String
  name : String
  payload : List (String × PyVal)
  id : String
  parent_id : Option String
  confidence : Option ℚ

/-- `internal(...)` convenience constructor. -/
def internalEvent (source name : String) (payload : List (String × PyVal))
    (confidence : Option ℚ) (parent_id : Option String) (id : String) : Event :=
  { type := .internal, source := source, name := name, payload := payload,
    id := id, parent_id := parent_id, confidence := confidence }

/-- `system_event(...)` convenience constructor (no confidence, no parent). -/
def systemEvent (source name : String) (payload : List (String × PyVal))
    (id : String) : Event :=
  { type := .system, source := source, name := name, payload := payload,
    id := id, parent_id := none, confidence := none }

/-! ## JSON serialization (`json.dumps` / `json.loads` in `shared/memory.py`) -/

/-- JSON values as stored in the `payload_json` TEXT column. -/
inductive Json where
  | jnull : Json
  | jbool : Bool → Json
  | jint : Int → Json
  | jfloat : ℚ → Json
  | jstr : String → Json
  | jarr : List Json → Json
  | jobj : List (String × Json) → Json
  deriving Repr

mutual

/-- `json.dumps` on a Python value: lists AND tuples both serialize to
JSON arrays; dicts to JSON objects. -/
def pyToJson : PyVal → Json
  | .vnone => .jnull
  | .vbool b => .jbool b
  | .vint n => .jint n
  | .vfloat q => .jfloat q
  | .vstr s => .jstr s
  | .vlist xs => .jarr (pyListToJson xs)
  | .vtuple xs => .jarr (pyListToJson xs)
  | .vdict kvs => .jobj (pyKVsToJson kvs)

def pyListToJson : List PyVal → List Json
  | [] => []
  | x :: xs => pyToJson x :: pyListToJson xs

def pyKVsToJson : List (String × PyVal) → List (String × Json)
  | [] => []
  | kv :: kvs => (kv.1, pyToJson kv.2) :: pyKVsToJson kvs

end

mutual

/-- `json.loads`: JSON arrays deserialize to Python lists (never tuples). -/
def jsonToPy : Json → PyVal
  | .jnull => .vnone
  | .jbool b => .vbool b
  | .jint n => .vint n
  | .jfloat q => .vfloat q
  | .jstr s => .vstr s
  | .jarr xs => .vlist (jsonListToPy xs)
  | .jobj kvs => .vdict (jsonKVsToPy kvs)

def jsonListToPy : List Json → List PyVal
  | [] => []
  | x :: xs => jsonToPy x :: jsonListToPy xs

def jsonKVsToPy : List (String × Json) → List (String × PyVal)
  | [] => []
  | kv :: kvs => (kv.1, jsonToPy kv.2) :: jsonKVsToPy kvs

end

mutual

/-- A Python value contains no tuple anywhere (the domain on which the
JSON round trip is exact). -/
def tupleFree : PyVal → Bool
  | .vnone => true
  | .vbool _ => true
  | .vint _ => true
  | .vfloat _ => true
  | .vstr _ => true
  | .vlist xs => tupleFreeList xs
  | .vtuple _ => false
  | .vdict kvs => tupleFreeKVs kvs

def tupleFreeList : List PyVal → Bool
  | [] => true
  | x :: xs => tupleFree x && tupleFreeList xs

def tupleFreeKVs : List (String × PyVal) → Bool
  | [] => true
  | kv :: kvs => tupleFree kv.2 && tupleFreeKVs kvs

end

mutual

theorem jsonToPy_pyToJson (p : PyVal) (h : tupleFree p = true) :
    jsonToPy (pyToJson p) = p := by
  cases p with
  | vnone => rfl
  | vbool b => rfl
  | vint n => rfl
  | vfloat q => rfl
  | vstr s => rfl
  | vlist xs =>
      simp only [pyToJson, jsonToPy]
      rw [jsonListToPy_pyListToJson xs (by simpa [tupleFree] using h)]
  | vtuple xs => simp [tupleFree] at h
  | vdict kvs =>
      simp only [pyToJson, jsonToPy]
      rw [jsonKVsToPy_pyKVsToJson kvs (by simpa [tupleFree] using h)]

theorem jsonListToPy_pyListToJson (xs : List PyVal) (h : tupleFreeList xs = true) :
    jsonListToPy (pyListToJson xs) = xs := by
  cases xs with
  | nil => rfl
  | cons x xs =>
      simp only [tupleFreeList, Bool.and_eq_true] at h
      simp only [pyListToJson, jsonListToPy]
      rw [jsonToPy_pyToJson x h.1, jsonListToPy_pyListToJson xs h.2]

theorem jsonKVsToPy_pyKVsToJson (kvs : List (String × PyVal))
    (h : tupleFreeKVs kvs = true) :
    jsonKVsToPy (pyKVsToJson kvs) = kvs := by
  cases kvs with
  | nil => rfl
  | cons kv kvs =>
      simp only [tupleFreeKVs, Bool.and_eq_true] at h
      simp only [pyKVsToJson, jsonKVsToPy]
      rw [jsonToPy_pyToJson kv.2 h.1, jsonKVsToPy_pyKVsToJson kvs h.2]

end

/-! ## MemoryStore (`shared/memory.py`)

The `events` table is a list of rows; `seq` is positional: the i-th row
(0-based) has `seq = i + 1`, matching append-only AUTOINCREMENT keys. -/

/-- One row of the `events` table. -/
structure Row where
  id : String
  parent_id : Option String
  typeStr : String
  source : String
  name : String
  payload_json : Json
  confidence : Option ℚ

/-- `_event_to_row`: serialize an event for storage. -/
def eventToRow (e : Event) : Row :=
  { id := e.id, parent_id := e.parent_id, typeStr := e.type.value,
    source := e.source, name := e.name,
    payload_json := pyToJson (.vdict e.payload), confidence := e.confidence }

/-- Read the stored payload back (`json.loads(row["payload_json"])`;
a stored payload is always a JSON object). -/
def jsonPayload : Json → List (String × PyVal)
  | .jobj kvs => jsonKVsToPy kvs
  | _ => []

/-- `_row_to_event`: deserialize a row into an event. -/
def rowToEvent (r : Row) : Event :=
  { type := EventType.ofValue r.typeStr, source := r.source, name := r.name,
    payload := jsonPayload r.payload_json, id := r.id,
    parent_id := r.parent_id, confidence := r.confidence }

/-- The append-only event store. -/
abbrev Store := List Row

/-- `MemoryStore.last_seq()`: tail sequence number, 0 when empty. -/
def lastSeq (m : Store) : Nat := m.length

/-- `MemoryStore.append(event)`: insert one row at the tail. -/
def appendEvent (m : Store) (e : Event) : Store := m ++ [eventToRow e]

/-- `MemoryStore.append_many(events)`: insert the rows at the tail. -/
def appendMany (m : Store) (es : List Event) : Store := m ++ es.map eventToRow

/-- `MemoryStore.iter_since(seq_exclusive)`: all `(seq, event)` pairs with
`seq > seq_exclusive`, ascending. Sequence numbers are contiguous
(1 .. length), so `WHERE seq > c ORDER BY seq ASC` returns exactly the rows
after index `c`, carrying their sequence numbers. -/
def iterSince (m : Store) (c : Nat) : List (Nat × Event) :=
  (m.drop c).enum.map (fun p => (c + p.1 + 1, rowToEvent p.2))

/-- `MemoryStore.recent(n)`: the last `n` events in ascending order. -/
def recentEvents (m : Store) (n : Nat) : List Event :=
  (m.drop (m.length - n)).map rowToEvent

/-! ## Background Core (`a7do/background_core/core.py`) -/

/-- `BackgroundState`: bounded regulatory control variables plus counters. -/
structure BackgroundState where
  arousal : ℚ := 0.15
  valence : ℚ := 0.0
  confidence : ℚ := 0.10
  confidence_floor : ℚ := 0.05
  uncertainty : ℚ := 0.85
  curiosity : ℚ := 0.25
  last_seen_seq : Nat := 0
  cycles : Nat := 0
  consecutive_high_arousal_cycles : Nat := 0
  consecutive_low_recovery_cycles : Nat := 0

/-- `BackgroundConfig`: tunables with their default values. -/
structure BackgroundConfig where
  arousal_min : ℚ := 0.02
  arousal_max : ℚ := 1.00
  confidence_min : ℚ := 0.02
  confidence_max : ℚ := 1.00
  uncertainty_min : ℚ := 0.00
  uncertainty_max : ℚ := 1.00
  curiosity_min : ℚ := 0.00
  curiosity_max : ℚ := 1.00
  valence_min : ℚ := -1.00
  valence_max : ℚ := 1.00
  arousal_decay : ℚ := 0.03
  uncertainty_decay_on_experience : ℚ := 0.02
  curiosity_rise_on_stagnation : ℚ := 0.03
  curiosity_decay_on_novelty : ℚ := 0.02
  arousal_bump_on_observation : ℚ := 0.015
  arousal_bump_on_failure : ℚ := 0.06
  confidence_drop_on_failure : ℚ := 0.04
  confidence_rise_on_success : ℚ := 0.02
  confidence_floor_rise_on_recovery : ℚ := 0.01
  confidence_floor_max : ℚ := 0.60
  cycle_event_threshold : Nat := 10
  stagnation_event_threshold : Nat := 0
  high_arousal_threshold : ℚ := 0.85
  low_recovery_threshold : ℚ := 0.12
  high_arousal_cycle_limit : Nat := 6
  low_recovery_cycle_limit : Nat := 8

/-- The default configuration (`BackgroundConfig()`). -/
def dcfg : BackgroundConfig := {}

/-- `BackgroundCore._clamp(v, lo, hi) = max(lo, min(hi, v))`. -/
def clamp (v lo hi : ℚ) : ℚ := max lo (min hi v)

/-- `BackgroundCore._clamp_all`: clamp every regulatory field to its bounds. -/
def clampAll (cfg : BackgroundConfig) (s : BackgroundState) : BackgroundState :=
  { s with
    arousal := clamp s.arousal cfg.arousal_min cfg.arousal_max
    confidence := clamp s.confidence cfg.confidence_min cfg.confidence_max
    confidence_floor := clamp s.confidence_floor 0 cfg.confidence_floor_max
    uncertainty := clamp s.uncertainty cfg.uncertainty_min cfg.uncertainty_max
    curiosity := clamp s.curiosity cfg.curiosity_min cfg.curiosity_max
    valence := clamp s.valence cfg.valence_min cfg.valence_max }

/-- `e.payload.get("ok", None) is True`. -/
def isTrueVal : PyVal → Bool
  | .vbool true => true
  | _ => false

/-- `e.payload.get("ok", None) is False`. -/
def isFalseVal : PyVal → Bool
  | .vbool false => true
  | _ => false

/-- The numeric signals computed by `_extract_signals`. -/
structure Signal where
  new_total : ℚ
  obs : ℚ
  act : ℚ
  outc : ℚ
  intr : ℚ
  sysCount : ℚ
  failure_rate : ℚ
  activity_ratio : ℚ

/-- `BackgroundCore._extract_signals`: counts by event type, plus failure
rate over outcome events carrying a boolean `ok`, and activity ratio. -/
def extractSignals (newEvents : List (Nat × Event)) : Signal :=
  let obs := ((newEvents.filter (fun p => p.2.type = EventType.observation)).length : ℚ)
  let act := ((newEvents.filter (fun p => p.2.type = EventType.action)).length : ℚ)
  let outc := ((newEvents.filter (fun p => p.2.type = EventType.outcome)).length : ℚ)
  let intr := ((newEvents.filter (fun p => p.2.type = EventType.internal)).length : ℚ)
  let sysC := ((newEvents.filter (fun p => p.2.type = EventType.system)).length : ℚ)
  let successes := ((newEvents.filter (fun p =>
    p.2.type = EventType.outcome ∧ isTrueVal (dictGet p.2.payload "ok" .vnone) = true)).length : ℚ)
  let failures := ((newEvents.filter (fun p =>
    p.2.type = EventType.outcome ∧ isFalseVal (dictGet p.2.payload "ok" .vnone) = true)).length : ℚ)
  let total : ℚ := max 1 (newEvents.length : ℚ)
  { new_total := (newEvents.length : ℚ), obs := obs, act := act, outc := outc,
    intr := intr, sysCount := sysC,
    failure_rate := failures / max 1 (failures + successes),
    activity_ratio := (obs + act + outc) / total }

/-- `BackgroundCore._apply_experience`. -/
def applyExperience (cfg : BackgroundConfig) (sig : Signal) (s : BackgroundState) :
    BackgroundState :=
  let s := { s with arousal :=
    s.arousal + cfg.arousal_bump_on_observation * (sig.obs / max 1 sig.new_total) }
  let s :=
    if sig.failure_rate > 0 then
      { s with
        arousal := s.arousal + cfg.arousal_bump_on_failure * sig.failure_rate
        confidence := s.confidence - cfg.confidence_drop_on_failure * sig.failure_rate
        uncertainty := s.uncertainty + 0.03 * sig.failure_rate }
    else s
  let success_inferred := max 0 (1 - sig.failure_rate)
  let s := { s with
    confidence := s.confidence + cfg.confidence_rise_on_success * success_inferred
    uncertainty := s.uncertainty - cfg.uncertainty_decay_on_experience * success_inferred }
  let s := { s with curiosity :=
    s.curiosity - cfg.curiosity_decay_on_novelty * min 1 sig.activity_ratio }
  { s with arousal := s.arousal - cfg.arousal_decay }

/-- `BackgroundCore._apply_stagnation`. -/
def applyStagnation (cfg : BackgroundConfig) (s : BackgroundState) : BackgroundState :=
  let s := { s with curiosity := s.curiosity + cfg.curiosity_rise_on_stagnation }
  let s := { s with arousal := s.arousal - cfg.arousal_decay }
  let s := { s with uncertainty := s.uncertainty + 0.01 }
  if s.confidence > s.confidence_floor then { s with confidence := s.confidence - 0.01 }
  else s

/-- First block of `_apply_confidence_floor_logic`: raise confidence to the
floor when it fell below. -/
def raiseConfToFloor (s : BackgroundState) : BackgroundState :=
  if s.confidence < s.confidence_floor then { s with confidence := s.confidence_floor }
  else s

/-- Second block of `_apply_confidence_floor_logic`: on simultaneous arousal
decrease and confidence increase, raise the floor, capped at the maximum. -/
def raiseFloorOnRecovery (cfg : BackgroundConfig) (prev s : BackgroundState) :
    BackgroundState :=
  if s.arousal < prev.arousal ∧ s.confidence > prev.confidence then
    { s with confidence_floor :=
      if s.confidence_floor + cfg.confidence_floor_rise_on_recovery >
          cfg.confidence_floor_max then
        cfg.confidence_floor_max
      else s.confidence_floor + cfg.confidence_floor_rise_on_recovery }
  else s

/-- Third block of `_apply_confidence_floor_logic`: the floor never exceeds
current confidence. -/
def capFloorAtConfidence (s : BackgroundState) : BackgroundState :=
  if s.confidence_floor > s.confidence then
    { s with confidence_floor := min s.confidence_floor s.confidence }
  else s

/-- `BackgroundCore._apply_confidence_floor_logic`. -/
def applyConfidenceFloorLogic (cfg : BackgroundConfig) (prev s : BackgroundState) :
    BackgroundState :=
  capFloorAtConfidence (raiseFloorOnRecovery cfg prev (raiseConfToFloor s))

/-- High-arousal streak tracking of `_burnout_guard`. -/
def trackHighArousal (cfg : BackgroundConfig) (s : BackgroundState) :
    BackgroundState :=
  if s.arousal ≥ cfg.high_arousal_threshold then
    { s with consecutive_high_arousal_cycles := s.consecutive_high_arousal_cycles + 1 }
  else { s with consecutive_high_arousal_cycles := 0 }

/-- Recovery-quality streak tracking of `_burnout_guard`. -/
def trackLowRecovery (cfg : BackgroundConfig) (prev s : BackgroundState) :
    BackgroundState :=
  if s.confidence - prev.confidence < cfg.low_recovery_threshold ∧
      s.arousal ≥ prev.arousal then
    { s with consecutive_low_recovery_cycles := s.consecutive_low_recovery_cycles + 1 }
  else { s with consecutive_low_recovery_cycles := 0 }

/-- Counter updates of `_burnout_guard` (the part before warnings fire). -/
def burnoutCounters (cfg : BackgroundConfig) (prev s : BackgroundState) :
    BackgroundState :=
  trackLowRecovery cfg prev (trackHighArousal cfg s)

/-- `BackgroundCore._burnout_guard`: update streak counters, emit system
warnings when a streak reaches its limit. -/
def burnoutGuard (cfg : BackgroundConfig) (prev s : BackgroundState) :
    BackgroundState × List Event :=
  let t := burnoutCounters cfg prev s
  let w1 : List Event :=
    if t.consecutive_high_arousal_cycles ≥ cfg.high_arousal_cycle_limit then
      [systemEvent "background_core" "warning_high_arousal_persistence"
        [("cycles", .vint t.cycles),
         ("consecutive", .vint t.consecutive_high_arousal_cycles),
         ("arousal", .vfloat t.arousal), ("confidence", .vfloat t.confidence),
         ("uncertainty", .vfloat t.uncertainty)]
        "warning_high_arousal_persistence"]
    else []
  let w2 : List Event :=
    if t.consecutive_low_recovery_cycles ≥ cfg.low_recovery_cycle_limit then
      [systemEvent "background_core" "warning_low_recovery_persistence"
        [("cycles", .vint t.cycles),
         ("consecutive", .vint t.consecutive_low_recovery_cycles),
         ("arousal", .vfloat t.arousal), ("confidence", .vfloat t.confidence),
         ("confidence_floor", .vfloat t.confidence_floor)]
        "warning_low_recovery_persistence"]
    else []
  (t, w1 ++ w2)

/-- `BackgroundCore._snapshot` as a payload value. -/
def snapshotVal (s : BackgroundState) : PyVal :=
  .vdict [("arousal", .vfloat s.arousal), ("valence", .vfloat s.valence),
          ("confidence", .vfloat s.confidence),
          ("confidence_floor", .vfloat s.confidence_floor),
          ("uncertainty", .vfloat s.uncertainty), ("curiosity", .vfloat s.curiosity)]

/-- `BackgroundCore._delta` as a payload value. -/
def deltaVal (prev s : BackgroundState) : PyVal :=
  .vdict [("arousal", .vfloat (s.arousal - prev.arousal)),
          ("valence", .vfloat (s.valence - prev.valence)),
          ("confidence", .vfloat (s.confidence - prev.confidence)),
          ("confidence_floor", .vfloat (s.confidence_floor - prev.confidence_floor)),
          ("uncertainty", .vfloat (s.uncertainty - prev.uncertainty)),
          ("curiosity", .vfloat (s.curiosity - prev.curiosity))]

/-- The extracted signal as a payload value. -/
def signalVal (sig : Signal) : PyVal :=
  .vdict [("new_total", .vfloat sig.new_total), ("obs", .vfloat sig.obs),
          ("act", .vfloat sig.act), ("outcome", .vfloat sig.outc),
          ("internal", .vfloat sig.intr), ("system", .vfloat sig.sysCount),
          ("failure_rate", .vfloat sig.failure_rate),
          ("activity_ratio", .vfloat sig.activity_ratio)]

/-- `BackgroundCore._cycle`: one full regulation cycle (experience or
stagnation variant), returning the new state and the emitted events. -/
def cycle (cfg : BackgroundConfig) (newEvents : List (Nat × Event))
    (stagnation : Bool) (s : BackgroundState) : BackgroundState × List Event :=
  let prev := s
  let signal := extractSignals newEvents
  let s1 := if stagnation then applyStagnation cfg s else applyExperience cfg signal s
  let s2 := clampAll cfg s1
  let s3 := applyConfidenceFloorLogic cfg prev s2
  let guarded := burnoutGuard cfg prev s3
  let stateUpdate := internalEvent "background_core" "state_update"
    [("cycles", .vint guarded.1.cycles), ("stagnation", .vbool stagnation),
     ("delta", deltaVal prev guarded.1), ("state", snapshotVal guarded.1),
     ("signal", signalVal signal)]
    (some guarded.1.confidence) none "state_update"
  ({ guarded.1 with cycles := guarded.1.cycles + 1 }, stateUpdate :: guarded.2)

/-- The confidence-relaxation block of `_light_tick`: snap up to the floor
when below it, otherwise drift down by 0.005 but never below the floor. -/
def relaxConfidence (s : BackgroundState) : BackgroundState :=
  if s.confidence < s.confidence_floor then { s with confidence := s.confidence_floor }
  else if s.confidence - 0.005 < s.confidence_floor then
    { s with confidence := s.confidence_floor }
  else { s with confidence := s.confidence - 0.005 }

/-- `BackgroundCore._light_tick`: the reduced regulation step. -/
def lightTick (cfg : BackgroundConfig) (new_count : Nat) (s : BackgroundState) :
    BackgroundState × List Event :=
  let prev := s
  let s := { s with arousal := s.arousal - cfg.arousal_decay * 0.5 }
  let s :=
    if new_count > 0 then
      { s with
        uncertainty := s.uncertainty - cfg.uncertainty_decay_on_experience * 0.25
        curiosity := s.curiosity - cfg.curiosity_decay_on_novelty * 0.25 }
    else { s with curiosity := s.curiosity + cfg.curiosity_rise_on_stagnation * 0.25 }
  let s := relaxConfidence s
  let s := clampAll cfg s
  (s, [internalEvent "background_core" "light_tick"
        [("new_event_count", .vint new_count), ("delta", deltaVal prev s),
         ("state", snapshotVal s)]
        (some s.confidence) none "light_tick"])

/-- A background core together with its memory store. -/
structure Sys where
  store : Store
  state : BackgroundState

/-- `BackgroundCore.step`: read new events, dispatch on the event count,
advance the cursor, append the emitted events. -/
def step (cfg : BackgroundConfig) (sys : Sys) : Sys × List Event :=
  let newEvents := iterSince sys.store sys.state.last_seen_seq
  let new_count := newEvents.length
  let last_seq :=
    match newEvents.getLast? with
    | some p => p.1
    | none => sys.state.last_seen_seq
  let res :=
    if new_count ≥ cfg.cycle_event_threshold then cycle cfg newEvents false sys.state
    else if new_count ≤ cfg.stagnation_event_threshold then cycle cfg [] true sys.state
    else lightTick cfg new_count sys.state
  ({ store := appendMany sys.store res.2,
     state := { res.1 with last_seen_seq := last_seq } }, res.2)

/-- Modelled from the spec: `BackgroundCore.__init__` as specified — the
source line `self.state.last_seen_seq = self.memory.last_seq())` has an
unmatched parenthesis and `self.state` is never bound, so the constructor
as written cannot run; the spec says construction yields a fresh state
vector with the cursor set to the log's current tail. -/
def initCore (m : Store) : BackgroundState :=
  { last_seen_seq := lastSeq m }

/-! ## Boundary Detector (`a7do/cognition/boundary.py`) -/

/-- Extract `(x, y)` from `payload["observed"]["position"]`: the position
must be a non-empty list or tuple whose first two entries are ints
(`if not pos or not isinstance(pos, (list, tuple)): continue`, then
`x, y = int(pos[0]), int(pos[1])`). -/
def getPosition (e : Event) : Option (Int × Int) :=
  match dictGet e.payload "observed" (.vdict []) with
  | .vdict obs =>
    match dictGet obs "position" .vnone with
    | .vlist (x :: y :: _) | .vtuple (x :: y :: _) =>
      match x, y with
      | .vint a, .vint b => some (a, b)
      | _, _ => none
    | _ => none
  | _ => none

/-- `BoundaryState`: hit counts per position (`hits.get(key, 0)`). -/
structure BoundaryState where
  hits : Int × Int → Nat

/-- `BoundaryDetector(threshold).state`: a fresh detector has no hits. -/
def freshBoundary : BoundaryState := ⟨fun _ => 0⟩

/-- The `boundary_detected` Internal event emitted at the threshold. -/
def boundaryEvent (p : Int × Int) (n : Nat) : Event :=
  internalEvent "boundary" "boundary_detected"
    [("position", .vdict [("x", .vint p.1), ("y", .vint p.2)]),
     ("hits", .vint n)]
    (some 1) none "boundary_detected"

/-- `BoundaryDetector.observe`: accumulate resistance per position, emit
`boundary_detected` when a count equals exactly the threshold. -/
def boundaryObserve (threshold : Nat) (st : BoundaryState) :
    List Event → BoundaryState × List Event
  | [] => (st, [])
  | e :: es =>
    if e.type = EventType.internal ∧ e.name = "prediction_error" then
      match getPosition e with
      | some p =>
        let n := st.hits p + 1
        let st' : BoundaryState := ⟨fun q => if q = p then n else st.hits q⟩
        let rest := boundaryObserve threshold st' es
        if n = threshold then (rest.1, boundaryEvent p n :: rest.2)
        else rest
      | none => boundaryObserve threshold st es
    else boundaryObserve threshold st es

/-- An event the detector counts at position `p`: an Internal
`prediction_error` whose observed payload carries position `p`. -/
def qualifiesAt (e : Event) (p : Int × Int) : Prop :=
  e.type = EventType.internal ∧ e.name = "prediction_error" ∧
    getPosition e = some p

/-! ## Preference Engine (`a7do/cognition/preference.py`) -/

/-- `PreferenceState`: per-key scores (`scores.get(key, 0.0)`). -/
structure PreferenceState where
  scores : String → ℚ

/-- `PreferenceEngine(lr).state`: all scores start at 0. -/
def freshPreference : PreferenceState := ⟨fun _ => 0⟩

/-- `PreferenceEngine._key_from_event`: `"pos:x,y"` from the observed
position, `None` when no position is resolvable. -/
def keyFromEvent (e : Event) : Option String :=
  (getPosition e).map (fun p => "pos:" ++ toString p.1 ++ "," ++ toString p.2)

/-- `float(...)` on a payload value (ints and floats; the repo stores
numbers in these payload fields). -/
def floatOf : PyVal → ℚ
  | .vfloat q => q
  | .vint n => (n : ℚ)
  | _ => 0

/-- The `preference_updated` Internal event. -/
def preferenceEvent (key : String) (delta score confidence : ℚ) : Event :=
  internalEvent "preference" "preference_updated"
    [("key", .vstr key), ("delta", .vfloat delta), ("score", .vfloat score)]
    (some confidence) none "preference_updated"

/-- `PreferenceEngine.observe`: accumulate per-key bias from
`expectation_confirmed` (score + lr, confidence `min(1, score)`) and from
`prediction_error` with error ≥ 0.3 (score − lr·error, confidence
`max(0, 1 − error)`). -/
def preferenceObserve (lr : ℚ) (st : PreferenceState) :
    List Event → PreferenceState × List Event
  | [] => (st, [])
  | e :: es =>
    if e.type = EventType.internal then
      if e.name = "expectation_confirmed" then
        match keyFromEvent e with
        | some key =>
          let newScore := st.scores key + lr
          let st' : PreferenceState :=
            ⟨fun k => if k = key then newScore else st.scores k⟩
          let rest := preferenceObserve lr st' es
          (rest.1, preferenceEvent key lr newScore (min 1 newScore) :: rest.2)
        | none => preferenceObserve lr st es
      else if e.name = "prediction_error" then
        let error := floatOf (dictGet e.payload "error" (.vfloat 0))
        if error < 0.3 then preferenceObserve lr st es
        else
          match keyFromEvent e with
          | some key =>
            let newScore := st.scores key - lr * error
            let st' : PreferenceState :=
              ⟨fun k => if k = key then newScore else st.scores k⟩
            let rest := preferenceObserve lr st' es
            (rest.1,
             preferenceEvent key (-(lr * error)) newScore (max 0 (1 - error)) :: rest.2)
          | none => preferenceObserve lr st es
      else preferenceObserve lr st es
    else preferenceObserve lr st es

/-! ## Derived observables and traces -/

/-- The new-event count a `step()` call sees. -/
def numNew (sys : Sys) : Nat :=
  (iterSince sys.store sys.state.last_seen_seq).length

/-- Which kind of work a `step()` call did, read off its emissions: a full
cycle leads with a `state_update` event whose payload carries the
`stagnation` flag; a light tick emits a `light_tick` event (no such flag). -/
def emittedKind (es : List Event) : Option (String × PyVal) :=
  es.head?.map (fun e => (e.name, dictGet e.payload "stagnation" .vnone))

/-- Iterated `step()` calls on a system (`stepN n` runs `n` steps). -/
def stepN (cfg : BackgroundConfig) : Nat → Sys → Sys
  | 0, sys => sys
  | n + 1, sys => (step cfg (stepN cfg n sys)).1

/-- State after `n` full regulation cycles, the `n`-th driven by input
`ins n` (its event batch and stagnation flag). -/
def traceState (cfg : BackgroundConfig) (ins : Nat → List (Nat × Event) × Bool)
    (s0 : BackgroundState) : Nat → BackgroundState
  | 0 => s0
  | n + 1 => (cycle cfg (ins n).1 (ins n).2 (traceState cfg ins s0 n)).1

/-- Events emitted by the `n`-th full cycle of the trace. -/
def traceEmitted (cfg : BackgroundConfig) (ins : Nat → List (Nat × Event) × Bool)
    (s0 : BackgroundState) (n : Nat) : List Event :=
  (cycle cfg (ins n).1 (ins n).2 (traceState cfg ins s0 n)).2

/-- End-of-cycle arousal of the `n`-th cycle is at or above the high-arousal
threshold 0.85. -/
def highAt (cfg : BackgroundConfig) (ins : Nat → List (Nat × Event) × Bool)
    (s0 : BackgroundState) (n : Nat) : Prop :=
  (traceState cfg ins s0 (n + 1)).arousal ≥ 0.85

/-- A `warning_high_arousal_persistence` event occurs in the list. -/
def hasWarningHigh (es : List Event) : Prop :=
  ∃ e ∈ es, e.name = "warning_high_arousal_persistence"

/-! ## Concrete inputs used by the witnesses -/

/-- A plain observation event. -/
def obsEvent : Event :=
  { type := .observation, source := "world", name := "obs", payload := [],
    id := "obs", parent_id := none, confidence := none }

/-- A store holding `n` observation events (sequence numbers 1..n). -/
def storeOfLen (n : Nat) : Store := List.replicate n (eventToRow obsEvent)

/-- A `prediction_error` event whose observed payload carries position
`(3, 4)`. -/
def probeEvent : Event :=
  internalEvent "prediction" "prediction_error"
    [("observed", .vdict [("position", .vlist [.vint 3, .vint 4])])]
    (some 0) none "probe"

/-- Three identical `prediction_error` events at position `(3, 4)`. -/
def probes3 : List Event := [probeEvent, probeEvent, probeEvent]

/-- A `prediction_error` event with error 1.0 at observed position `(0, 0)`. -/
def errEvent : Event :=
  internalEvent "prediction" "prediction_error"
    [("error", .vfloat 1),
     ("observed", .vdict [("position", .vlist [.vint 0, .vint 0])])]
    (some 0) none "err"

/-- An `expectation_confirmed` event at observed position `(0, 0)`. -/
def confirmEvent : Event :=
  internalEvent "prediction" "expectation_confirmed"
    [("observed", .vdict [("position", .vlist [.vint 0, .vint 0])])]
    (some 1) none "confirm"

/-- An event whose payload holds a tuple value `(3, 4)` — accepted by the
store without a serialization error (`json.dumps` encodes tuples as JSON
arrays). -/
def tupleEvent : Event :=
  { type := .internal, source := "test", name := "tuple_payload",
    payload := [("p", .vtuple [.vint 3, .vint 4])],
    id := "tup", parent_id := none, confidence := none }

/-- A freshly constructed system over an empty log. -/
def sys0 : Sys := { store := [], state := initCore [] }

/-- A cycle-input stream of empty batches with the stagnation flag set. -/
def insStag : Nat → List (Nat × Event) × Bool := fun _ => ([], true)

/-- A freshly constructed system over a log holding `n` observation events. -/
def sysOver (n : Nat) : Sys :=
  { store := storeOfLen n, state := { initCore (storeOfLen n) with last_seen_seq := 0 } }

/-! ## Lemmas about clamping and the confidence-floor logic -/

theorem dcfg_arousal_min : dcfg.arousal_min = 0.02 := by norm_num [dcfg]

theorem dcfg_arousal_max : dcfg.arousal_max = 1 := by norm_num [dcfg]

theorem dcfg_confidence_min : dcfg.confidence_min = 0.02 := by norm_num [dcfg]

theorem dcfg_confidence_max : dcfg.confidence_max = 1 := by norm_num [dcfg]

theorem dcfg_uncertainty_min : dcfg.uncertainty_min = 0 := by norm_num [dcfg]

theorem dcfg_uncertainty_max : dcfg.uncertainty_max = 1 := by norm_num [dcfg]

theorem dcfg_curiosity_min : dcfg.curiosity_min = 0 := by norm_num [dcfg]

theorem dcfg_curiosity_max : dcfg.curiosity_max = 1 := by norm_num [dcfg]

theorem dcfg_valence_min : dcfg.valence_min = -1 := by norm_num [dcfg]

theorem dcfg_valence_max : dcfg.valence_max = 1 := by norm_num [dcfg]

theorem dcfg_floor_rise : dcfg.confidence_floor_rise_on_recovery = 0.01 := by
  norm_num [dcfg]

theorem dcfg_floor_max : dcfg.confidence_floor_max = 0.6 := by norm_num [dcfg]

theorem dcfg_cycle_threshold : dcfg.cycle_event_threshold = 10 := by norm_num [dcfg]

theorem dcfg_stagnation_threshold : dcfg.stagnation_event_threshold = 0 := by
  norm_num [dcfg]

theorem dcfg_high_threshold : dcfg.high_arousal_threshold = 0.85 := by
  norm_num [dcfg]

theorem dcfg_high_limit : dcfg.high_arousal_cycle_limit = 6 := by norm_num [dcfg]

theorem clamp_lb (v lo hi : ℚ) : lo ≤ clamp v lo hi := le_max_left _ _

theorem clamp_ub (v lo hi : ℚ) (h : lo ≤ hi) : clamp v lo hi ≤ hi :=
  max_le h (min_le_left _ _)

theorem clamp_eq_self (v lo hi : ℚ) (h1 : lo ≤ v) (h2 : v ≤ hi) :
    clamp v lo hi = v := by
  unfold clamp
  rw [min_eq_right h2, max_eq_right h1]

theorem clampAll_bounds (s : BackgroundState) :
    0.02 ≤ (clampAll dcfg s).arousal ∧ (clampAll dcfg s).arousal ≤ 1 ∧
    0.02 ≤ (clampAll dcfg s).confidence ∧ (clampAll dcfg s).confidence ≤ 1 ∧
    0 ≤ (clampAll dcfg s).confidence_floor ∧
    (clampAll dcfg s).confidence_floor ≤ 0.6 ∧
    0 ≤ (clampAll dcfg s).uncertainty ∧ (clampAll dcfg s).uncertainty ≤ 1 ∧
    0 ≤ (clampAll dcfg s).curiosity ∧ (clampAll dcfg s).curiosity ≤ 1 ∧
    -1 ≤ (clampAll dcfg s).valence ∧ (clampAll dcfg s).valence ≤ 1 := by
  refine ⟨?_, ?_, ?_, ?_, ?_, ?_, ?_, ?_, ?_, ?_, ?_, ?_⟩ <;> simp only [clampAll]
  · rw [dcfg_arousal_min]; exact clamp_lb _ _ _
  · rw [dcfg_arousal_max]; apply clamp_ub; rw [dcfg_arousal_min]; norm_num
  · rw [dcfg_confidence_min]; exact clamp_lb _ _ _
  · rw [dcfg_confidence_max]; apply clamp_ub; rw [dcfg_confidence_min]; norm_num
  · exact clamp_lb _ _ _
  · rw [dcfg_floor_max]; apply clamp_ub; norm_num
  · rw [dcfg_uncertainty_min]; exact clamp_lb _ _ _
  · rw [dcfg_uncertainty_max]; apply clamp_ub; rw [dcfg_uncertainty_min]; norm_num
  · rw [dcfg_curiosity_min]; exact clamp_lb _ _ _
  · rw [dcfg_curiosity_max]; apply clamp_ub; rw [dcfg_curiosity_min]; norm_num
  · rw [dcfg_valence_min]; exact clamp_lb _ _ _
  · rw [dcfg_valence_max]; apply clamp_ub; rw [dcfg_valence_min]; norm_num

theorem clampAll_counters (cfg : BackgroundConfig) (s : BackgroundState) :
    (clampAll cfg s).last_seen_seq = s.last_seen_seq ∧
    (clampAll cfg s).cycles = s.cycles ∧
    (clampAll cfg s).consecutive_high_arousal_cycles =
      s.consecutive_high_arousal_cycles ∧
    (clampAll cfg s).consecutive_low_recovery_cycles =
      s.consecutive_low_recovery_cycles :=
  ⟨rfl, rfl, rfl, rfl⟩

theorem raiseConfToFloor_spec (s : BackgroundState) :
    (raiseConfToFloor s).arousal = s.arousal ∧
    (raiseConfToFloor s).valence = s.valence ∧
    (raiseConfToFloor s).uncertainty = s.uncertainty ∧
    (raiseConfToFloor s).curiosity = s.curiosity ∧
    (raiseConfToFloor s).confidence_floor = s.confidence_floor ∧
    (raiseConfToFloor s).confidence = max s.confidence s.confidence_floor ∧
    (raiseConfToFloor s).consecutive_high_arousal_cycles =
      s.consecutive_high_arousal_cycles ∧
    (raiseConfToFloor s).cycles = s.cycles := by
  unfold raiseConfToFloor
  split_ifs with h
  · exact ⟨rfl, rfl, rfl, rfl, rfl, by simp [max_eq_right (le_of_lt h)], rfl, rfl⟩
  · exact ⟨rfl, rfl, rfl, rfl, rfl, by simp [max_eq_left (le_of_not_lt h)], rfl, rfl⟩

theorem raiseFloorOnRecovery_spec (prev s : BackgroundState) :
    (raiseFloorOnRecovery dcfg prev s).arousal = s.arousal ∧
    (raiseFloorOnRecovery dcfg prev s).valence = s.valence ∧
    (raiseFloorOnRecovery dcfg prev s).uncertainty = s.uncertainty ∧
    (raiseFloorOnRecovery dcfg prev s).curiosity = s.curiosity ∧
    (raiseFloorOnRecovery dcfg prev s).confidence = s.confidence ∧
    (raiseFloorOnRecovery dcfg prev s).confidence_floor =
      (if s.arousal < prev.arousal ∧ s.confidence > prev.confidence then
        min (s.confidence_floor + 0.01) 0.6
      else s.confidence_floor) ∧
    (raiseFloorOnRecovery dcfg prev s).consecutive_high_arousal_cycles =
      s.consecutive_high_arousal_cycles ∧
    (raiseFloorOnRecovery dcfg prev s).cycles = s.cycles := by
  unfold raiseFloorOnRecovery
  split_ifs with h h2
  · refine ⟨rfl, rfl, rfl, rfl, rfl, ?_, rfl, rfl⟩
    simp only [dcfg_floor_rise, dcfg_floor_max] at h2 ⊢
    rw [min_eq_right (le_of_lt h2)]
  · refine ⟨rfl, rfl, rfl, rfl, rfl, ?_, rfl, rfl⟩
    simp only [dcfg_floor_rise, dcfg_floor_max] at h2 ⊢
    rw [min_eq_left (le_of_not_lt h2)]
  · exact ⟨rfl, rfl, rfl, rfl, rfl, rfl, rfl, rfl⟩

theorem capFloorAtConfidence_spec (s : BackgroundState) :
    (capFloorAtConfidence s).arousal = s.arousal ∧
    (capFloorAtConfidence s).valence = s.valence ∧
    (capFloorAtConfidence s).uncertainty = s.uncertainty ∧
    (capFloorAtConfidence s).curiosity = s.curiosity ∧
    (capFloorAtConfidence s).confidence = s.confidence ∧
    (capFloorAtConfidence s).confidence_floor =
      min s.confidence_floor s.confidence ∧
    (capFloorAtConfidence s).consecutive_high_arousal_cycles =
      s.consecutive_high_arousal_cycles ∧
    (capFloorAtConfidence s).cycles = s.cycles := by
  unfold capFloorAtConfidence
  split_ifs with h
  · exact ⟨rfl, rfl, rfl, rfl, rfl, rfl, rfl, rfl⟩
  · exact ⟨rfl, rfl, rfl, rfl, rfl, by simp [min_eq_left (le_of_not_lt h)], rfl, rfl⟩

theorem floorLogic_spec (prev s : BackgroundState)
    (hc : 0.02 ≤ s.confidence) (hc1 : s.confidence ≤ 1)
    (hf0 : 0 ≤ s.confidence_floor) (hf6 : s.confidence_floor ≤ 0.6) :
    (applyConfidenceFloorLogic dcfg prev s).arousal = s.arousal ∧
    (applyConfidenceFloorLogic dcfg prev s).valence = s.valence ∧
    (applyConfidenceFloorLogic dcfg prev s).uncertainty = s.uncertainty ∧
    (applyConfidenceFloorLogic dcfg prev s).curiosity = s.curiosity ∧
    0.02 ≤ (applyConfidenceFloorLogic dcfg prev s).confidence ∧
    (applyConfidenceFloorLogic dcfg prev s).confidence ≤ 1 ∧
    0 ≤ (applyConfidenceFloorLogic dcfg prev s).confidence_floor ∧
    (applyConfidenceFloorLogic dcfg prev s).confidence_floor ≤ 0.6 ∧
    (applyConfidenceFloorLogic dcfg prev s).confidence_floor ≤
      (applyConfidenceFloorLogic dcfg prev s).confidence ∧
    (s.confidence_floor ≤ (applyConfidenceFloorLogic dcfg prev s).confidence_floor ∨
      (applyConfidenceFloorLogic dcfg prev s).confidence_floor =
        (applyConfidenceFloorLogic dcfg prev s).confidence) ∧
    (s.confidence_floor < (applyConfidenceFloorLogic dcfg prev s).confidence_floor →
      s.arousal < prev.arousal ∧
        prev.confidence < (applyConfidenceFloorLogic dcfg prev s).confidence) ∧
    (applyConfidenceFloorLogic dcfg prev s).consecutive_high_arousal_cycles =
      s.consecutive_high_arousal_cycles ∧
    (applyConfidenceFloorLogic dcfg prev s).cycles = s.cycles := by
  obtain ⟨a1, v1, u1, k1, f1, q1, h1, y1⟩ := raiseConfToFloor_spec s
  obtain ⟨a2, v2, u2, k2, q2, f2, h2, y2⟩ :=
    raiseFloorOnRecovery_spec prev (raiseConfToFloor s)
  obtain ⟨a3, v3, u3, k3, q3, f3, h3, y3⟩ :=
    capFloorAtConfidence_spec (raiseFloorOnRecovery dcfg prev (raiseConfToFloor s))
  simp only [applyConfidenceFloorLogic]
  rw [a1, q1, f1] at f2
  rw [q2, q1] at q3 f3
  have hM1 : s.confidence ≤ max s.confidence s.confidence_floor := le_max_left _ _
  have hM2 : s.confidence_floor ≤ max s.confidence s.confidence_floor :=
    le_max_right _ _
  have hM0 : (0.02 : ℚ) ≤ max s.confidence s.confidence_floor := le_trans hc hM1
  have hMtop : max s.confidence s.confidence_floor ≤ 1 :=
    max_le hc1 (le_trans hf6 (by norm_num))
  refine ⟨a3.trans (a2.trans a1), v3.trans (v2.trans v1), u3.trans (u2.trans u1),
    k3.trans (k2.trans k1), ?_, ?_, ?_, ?_, ?_, ?_, ?_,
    h3.trans (h2.trans h1), y3.trans (y2.trans y1)⟩
  · rw [q3]; exact hM0
  · rw [q3]; exact hMtop
  · rw [f3, f2]
    split_ifs with hcond
    · exact le_min (le_min (by linarith) (by norm_num)) (by linarith)
    · exact le_min hf0 (by linarith)
  · rw [f3, f2]
    split_ifs with hcond
    · exact le_trans (min_le_left _ _) (min_le_right _ _)
    · exact le_trans (min_le_left _ _) hf6
  · rw [f3, q3]; exact min_le_right _ _
  · rw [f3, f2, q3]
    split_ifs with hcond
    · rcases min_choice (min (s.confidence_floor + 0.01) 0.6)
        (max s.confidence s.confidence_floor) with hmin | hmin
      · left; rw [hmin]; exact le_min (by linarith) hf6
      · right; exact hmin
    · left; rw [min_eq_left hM2]
  · rw [f3, f2, q3]
    split_ifs with hcond
    · intro _; exact ⟨hcond.1, hcond.2⟩
    · intro hlt
      exact absurd (lt_of_lt_of_le hlt (min_le_left _ _)) (lt_irrefl _)

theorem burnoutCounters_numerics (cfg : BackgroundConfig) (prev s : BackgroundState) :
    (burnoutCounters cfg prev s).arousal = s.arousal ∧
    (burnoutCounters cfg prev s).valence = s.valence ∧
    (burnoutCounters cfg prev s).confidence = s.confidence ∧
    (burnoutCounters cfg prev s).confidence_floor = s.confidence_floor ∧
    (burnoutCounters cfg prev s).uncertainty = s.uncertainty ∧
    (burnoutCounters cfg prev s).curiosity = s.curiosity ∧
    (burnoutCounters cfg prev s).cycles = s.cycles := by
  unfold burnoutCounters trackLowRecovery trackHighArousal
  split_ifs <;> exact ⟨rfl, rfl, rfl, rfl, rfl, rfl, rfl⟩

theorem burnoutCounters_high (cfg : BackgroundConfig) (prev s : BackgroundState) :
    (burnoutCounters cfg prev s).consecutive_high_arousal_cycles =
      (if s.arousal ≥ cfg.high_arousal_threshold then
        s.consecutive_high_arousal_cycles + 1
      else 0) := by
  unfold burnoutCounters trackLowRecovery trackHighArousal
  split_ifs with h1 h2 h3 <;> rfl

theorem burnoutGuard_fst (cfg : BackgroundConfig) (prev s : BackgroundState) :
    (burnoutGuard cfg prev s).1 = burnoutCounters cfg prev s := rfl

theorem burnoutGuard_warning_iff (cfg : BackgroundConfig) (prev s : BackgroundState) :
    (hasWarningHigh (burnoutGuard cfg prev s).2 ↔
      cfg.high_arousal_cycle_limit ≤
        (burnoutCounters cfg prev s).consecutive_high_arousal_cycles) := by
  simp only [burnoutGuard, hasWarningHigh]
  split_ifs with h1 h2 h3 <;> simp_all [systemEvent, ge_iff_le]

theorem relaxConfidence_spec (s : BackgroundState) :
    (relaxConfidence s).arousal = s.arousal ∧
    (relaxConfidence s).valence = s.valence ∧
    (relaxConfidence s).uncertainty = s.uncertainty ∧
    (relaxConfidence s).curiosity = s.curiosity ∧
    (relaxConfidence s).confidence_floor = s.confidence_floor ∧
    (relaxConfidence s).confidence_floor ≤ (relaxConfidence s).confidence := by
  unfold relaxConfidence
  split_ifs with h1 h2
  · exact ⟨rfl, rfl, rfl, rfl, rfl, le_refl _⟩
  · exact ⟨rfl, rfl, rfl, rfl, rfl, le_refl _⟩
  · exact ⟨rfl, rfl, rfl, rfl, rfl, le_of_not_lt h2⟩

theorem clampAll_floor_le_conf (s : BackgroundState)
    (h : s.confidence_floor ≤ s.confidence) :
    (clampAll dcfg s).confidence_floor ≤ (clampAll dcfg s).confidence := by
  simp only [clampAll]
  rw [dcfg_confidence_min, dcfg_confidence_max, dcfg_floor_max]
  unfold clamp
  apply max_le
  · exact le_trans (by norm_num : (0 : ℚ) ≤ 0.02) (le_max_left _ _)
  · exact le_trans
      (le_min (le_trans (min_le_left _ _) (by norm_num : (0.6 : ℚ) ≤ 1))
        (le_trans (min_le_right _ _) h))
      (le_max_right _ _)

theorem applyExperience_inert (cfg : BackgroundConfig) (sig : Signal)
    (s : BackgroundState) :
    (applyExperience cfg sig s).confidence_floor = s.confidence_floor ∧
    (applyExperience cfg sig s).consecutive_high_arousal_cycles =
      s.consecutive_high_arousal_cycles ∧
    (applyExperience cfg sig s).cycles = s.cycles := by
  simp only [applyExperience]
  split_ifs <;> exact ⟨rfl, rfl, rfl⟩

theorem applyStagnation_inert (cfg : BackgroundConfig) (s : BackgroundState) :
    (applyStagnation cfg s).confidence_floor = s.confidence_floor ∧
    (applyStagnation cfg s).consecutive_high_arousal_cycles =
      s.consecutive_high_arousal_cycles ∧
    (applyStagnation cfg s).cycles = s.cycles := by
  simp only [applyStagnation]
  split_ifs <;> exact ⟨rfl, rfl, rfl⟩

theorem cycle_fst_spec (batch : List (Nat × Event)) (stag : Bool)
    (s : BackgroundState) :
    0.02 ≤ (cycle dcfg batch stag s).1.arousal ∧
    (cycle dcfg batch stag s).1.arousal ≤ 1 ∧
    0.02 ≤ (cycle dcfg batch stag s).1.confidence ∧
    (cycle dcfg batch stag s).1.confidence ≤ 1 ∧
    0 ≤ (cycle dcfg batch stag s).1.confidence_floor ∧
    (cycle dcfg batch stag s).1.confidence_floor ≤ 0.6 ∧
    0 ≤ (cycle dcfg batch stag s).1.uncertainty ∧
    (cycle dcfg batch stag s).1.uncertainty ≤ 1 ∧
    0 ≤ (cycle dcfg batch stag s).1.curiosity ∧
    (cycle dcfg batch stag s).1.curiosity ≤ 1 ∧
    -1 ≤ (cycle dcfg batch stag s).1.valence ∧
    (cycle dcfg batch stag s).1.valence ≤ 1 ∧
    (cycle dcfg batch stag s).1.confidence_floor ≤
      (cycle dcfg batch stag s).1.confidence ∧
    (0 ≤ s.confidence_floor → s.confidence_floor ≤ 0.6 →
      (s.confidence_floor ≤ (cycle dcfg batch stag s).1.confidence_floor ∨
        (cycle dcfg batch stag s).1.confidence_floor =
          (cycle dcfg batch stag s).1.confidence) ∧
      (s.confidence_floor < (cycle dcfg batch stag s).1.confidence_floor →
        (cycle dcfg batch stag s).1.arousal < s.arousal ∧
          s.confidence < (cycle dcfg batch stag s).1.confidence)) ∧
    (cycle dcfg batch stag s).1.consecutive_high_arousal_cycles =
      (if (cycle dcfg batch stag s).1.arousal ≥ 0.85 then
        s.consecutive_high_arousal_cycles + 1
      else 0) := by
  obtain ⟨hb1, hb2, hb3, hb4, hb5, hb6, hb7, hb8, hb9, hb10, hb11, hb12⟩ :=
    clampAll_bounds
      (if stag then applyStagnation dcfg s
       else applyExperience dcfg (extractSignals batch) s)
  obtain ⟨fa, fv, fu, fk, fc1, fc2, ff0, ff6, ffc, fmono, fraise, fh, fy⟩ :=
    floorLogic_spec s
      (clampAll dcfg
        (if stag then applyStagnation dcfg s
         else applyExperience dcfg (extractSignals batch) s))
      hb3 hb4 hb5 hb6
  obtain ⟨na, nv, nc, nf, nu, nk, ny⟩ :=
    burnoutCounters_numerics dcfg s
      (applyConfidenceFloorLogic dcfg s
        (clampAll dcfg
          (if stag then applyStagnation dcfg s
           else applyExperience dcfg (extractSignals batch) s)))
  have hH :=
    burnoutCounters_high dcfg s
      (applyConfidenceFloorLogic dcfg s
        (clampAll dcfg
          (if stag then applyStagnation dcfg s
           else applyExperience dcfg (extractSignals batch) s)))
  have hbranchf :
      (if stag then applyStagnation dcfg s
       else applyExperience dcfg (extractSignals batch) s).confidence_floor =
        s.confidence_floor := by
    cases stag
    · simp [(applyExperience_inert dcfg (extractSignals batch) s).1]
    · simp [(applyStagnation_inert dcfg s).1]
  have hbranchh :
      (if stag then applyStagnation dcfg s
       else applyExperience dcfg (extractSignals batch) s).consecutive_high_arousal_cycles =
        s.consecutive_high_arousal_cycles := by
    cases stag
    · simp [(applyExperience_inert dcfg (extractSignals batch) s).2.1]
    · simp [(applyStagnation_inert dcfg s).2.1]
  have hcnt :
      (applyConfidenceFloorLogic dcfg s
        (clampAll dcfg
          (if stag then applyStagnation dcfg s
           else applyExperience dcfg (extractSignals batch) s))).consecutive_high_arousal_cycles =
        s.consecutive_high_arousal_cycles := by
    rw [fh,
      (clampAll_counters dcfg
        (if stag then applyStagnation dcfg s
         else applyExperience dcfg (extractSignals batch) s)).2.2.1, hbranchh]
  simp only [cycle, burnoutGuard_fst]
  refine ⟨?_, ?_, ?_, ?_, ?_, ?_, ?_, ?_, ?_, ?_, ?_, ?_, ?_, ?_, ?_⟩
  · rw [na, fa]; exact hb1
  · rw [na, fa]; exact hb2
  · rw [nc]; exact fc1
  · rw [nc]; exact fc2
  · rw [nf]; exact ff0
  · rw [nf]; exact ff6
  · rw [nu, fu]; exact hb7
  · rw [nu, fu]; exact hb8
  · rw [nk, fk]; exact hb9
  · rw [nk, fk]; exact hb10
  · rw [nv, fv]; exact hb11
  · rw [nv, fv]; exact hb12
  · rw [nf, nc]; exact ffc
  · intro g0 g6
    have hfloor_eq :
        (clampAll dcfg
          (if stag then applyStagnation dcfg s
           else applyExperience dcfg (extractSignals batch) s)).confidence_floor =
          s.confidence_floor := by
      simp only [clampAll]
      rw [dcfg_floor_max, hbranchf]
      exact clamp_eq_self _ _ _ g0 g6
    constructor
    · rcases fmono with h | h
      · left; rw [nf]; rw [hfloor_eq] at h; exact h
      · right; rw [nf, nc]; exact h
    · intro hlt
      rw [nf] at hlt
      rw [← hfloor_eq] at hlt
      refine ⟨?_, ?_⟩
      · rw [na, fa]; exact (fraise hlt).1
      · rw [nc]; exact (fraise hlt).2
  · rw [hH]
    simp only [na, dcfg_high_threshold, hcnt]

theorem relaxThenClamp_spec (u : BackgroundState) :
    0.02 ≤ (clampAll dcfg (relaxConfidence u)).arousal ∧
    (clampAll dcfg (relaxConfidence u)).arousal ≤ 1 ∧
    0.02 ≤ (clampAll dcfg (relaxConfidence u)).confidence ∧
    (clampAll dcfg (relaxConfidence u)).confidence ≤ 1 ∧
    0 ≤ (clampAll dcfg (relaxConfidence u)).confidence_floor ∧
    (clampAll dcfg (relaxConfidence u)).confidence_floor ≤ 0.6 ∧
    0 ≤ (clampAll dcfg (relaxConfidence u)).uncertainty ∧
    (clampAll dcfg (relaxConfidence u)).uncertainty ≤ 1 ∧
    0 ≤ (clampAll dcfg (relaxConfidence u)).curiosity ∧
    (clampAll dcfg (relaxConfidence u)).curiosity ≤ 1 ∧
    -1 ≤ (clampAll dcfg (relaxConfidence u)).valence ∧
    (clampAll dcfg (relaxConfidence u)).valence ≤ 1 ∧
    (clampAll dcfg (relaxConfidence u)).confidence_floor ≤
      (clampAll dcfg (relaxConfidence u)).confidence ∧
    (clampAll dcfg (relaxConfidence u)).confidence_floor =
      clamp u.confidence_floor 0 0.6 := by
  obtain ⟨hb1, hb2, hb3, hb4, hb5, hb6, hb7, hb8, hb9, hb10, hb11, hb12⟩ :=
    clampAll_bounds (relaxConfidence u)
  obtain ⟨ra, rv, ru, rk, rf, rfc⟩ := relaxConfidence_spec u
  refine ⟨hb1, hb2, hb3, hb4, hb5, hb6, hb7, hb8, hb9, hb10, hb11, hb12,
    clampAll_floor_le_conf _ rfc, ?_⟩
  simp only [clampAll]
  rw [dcfg_floor_max, rf]

theorem lightTick_fst_spec (n : Nat) (s : BackgroundState) :
    0.02 ≤ (lightTick dcfg n s).1.arousal ∧
    (lightTick dcfg n s).1.arousal ≤ 1 ∧
    0.02 ≤ (lightTick dcfg n s).1.confidence ∧
    (lightTick dcfg n s).1.confidence ≤ 1 ∧
    0 ≤ (lightTick dcfg n s).1.confidence_floor ∧
    (lightTick dcfg n s).1.confidence_floor ≤ 0.6 ∧
    0 ≤ (lightTick dcfg n s).1.uncertainty ∧
    (lightTick dcfg n s).1.uncertainty ≤ 1 ∧
    0 ≤ (lightTick dcfg n s).1.curiosity ∧
    (lightTick dcfg n s).1.curiosity ≤ 1 ∧
    -1 ≤ (lightTick dcfg n s).1.valence ∧
    (lightTick dcfg n s).1.valence ≤ 1 ∧
    (lightTick dcfg n s).1.confidence_floor ≤ (lightTick dcfg n s).1.confidence ∧
    (lightTick dcfg n s).1.confidence_floor = clamp s.confidence_floor 0 0.6 := by
  simp only [lightTick]
  split_ifs with hn
  · exact relaxThenClamp_spec _
  · exact relaxThenClamp_spec _

/-! ## Claim theorems -/

/-- C1: after any `BackgroundCore.step()` call, every bounded regulatory
field lies within its declared range: arousal and confidence in
[0.02, 1], confidence_floor in [0, 0.6], uncertainty and curiosity in
[0, 1], valence in [-1, 1] — for every starting state, reachable or not. -/
theorem step_keeps_bounds (sys : Sys) :
    0.02 ≤ (step dcfg sys).1.state.arousal ∧
    (step dcfg sys).1.state.arousal ≤ 1 ∧
    0.02 ≤ (step dcfg sys).1.state.confidence ∧
    (step dcfg sys).1.state.confidence ≤ 1 ∧
    0 ≤ (step dcfg sys).1.state.confidence_floor ∧
    (step dcfg sys).1.state.confidence_floor ≤ 0.6 ∧
    0 ≤ (step dcfg sys).1.state.uncertainty ∧
    (step dcfg sys).1.state.uncertainty ≤ 1 ∧
    0 ≤ (step dcfg sys).1.state.curiosity ∧
    (step dcfg sys).1.state.curiosity ≤ 1 ∧
    -1 ≤ (step dcfg sys).1.state.valence ∧
    (step dcfg sys).1.state.valence ≤ 1 := by
  simp only [step]
  split_ifs with h1 h2
  · obtain ⟨b1, b2, b3, b4, b5, b6, b7, b8, b9, b10, b11, b12, _, _, _⟩ :=
      cycle_fst_spec (iterSince sys.store sys.state.last_seen_seq) false sys.state
    exact ⟨b1, b2, b3, b4, b5, b6, b7, b8, b9, b10, b11, b12⟩
  · obtain ⟨b1, b2, b3, b4, b5, b6, b7, b8, b9, b10, b11, b12, _, _, _⟩ :=
      cycle_fst_spec [] true sys.state
    exact ⟨b1, b2, b3, b4, b5, b6, b7, b8, b9, b10, b11, b12⟩
  · obtain ⟨b1, b2, b3, b4, b5, b6, b7, b8, b9, b10, b11, b12, _, _⟩ :=
      lightTick_fst_spec (iterSince sys.store sys.state.last_seen_seq).length
        sys.state
    exact ⟨b1, b2, b3, b4, b5, b6, b7, b8, b9, b10, b11, b12⟩

/-- C2: immediately after every full cycle (experience or stagnation) and
after every light tick performed by `step()`, confidence ≥ confidence_floor
holds — for every starting state. -/
theorem step_confidence_ge_floor (sys : Sys) :
    (step dcfg sys).1.state.confidence_floor ≤ (step dcfg sys).1.state.confidence := by
  simp only [step]
  split_ifs with h1 h2
  · exact (cycle_fst_spec (iterSince sys.store sys.state.last_seen_seq) false
      sys.state).2.2.2.2.2.2.2.2.2.2.2.2.1
  · exact (cycle_fst_spec [] true sys.state).2.2.2.2.2.2.2.2.2.2.2.2.1
  · exact (lightTick_fst_spec (iterSince sys.store sys.state.last_seen_seq).length
      sys.state).2.2.2.2.2.2.2.2.2.2.2.2.1

/-- C3: across `step()` calls, confidence_floor never exceeds 0.6; it never
decreases except when explicitly clamped down to the current confidence;
and it strictly rises only when the step ran a full cycle (not a light
tick) in which arousal strictly decreased and confidence strictly
increased relative to the pre-cycle state. -/
theorem step_floor_monotone (sys : Sys)
    (h0 : 0 ≤ sys.state.confidence_floor)
    (h6 : sys.state.confidence_floor ≤ 0.6) :
    (step dcfg sys).1.state.confidence_floor ≤ 0.6 ∧
    (sys.state.confidence_floor ≤ (step dcfg sys).1.state.confidence_floor ∨
      (step dcfg sys).1.state.confidence_floor =
        (step dcfg sys).1.state.confidence) ∧
    (sys.state.confidence_floor < (step dcfg sys).1.state.confidence_floor →
      (step dcfg sys).1.state.arousal < sys.state.arousal ∧
      sys.state.confidence < (step dcfg sys).1.state.confidence ∧
      ¬(0 < numNew sys ∧ numNew sys < 10)) := by
  have hnum : numNew sys = (iterSince sys.store sys.state.last_seen_seq).length := rfl
  simp only [step]
  split_ifs with h1 h2
  · obtain ⟨_, _, _, _, _, b6, _, _, _, _, _, _, _, hmono, _⟩ :=
      cycle_fst_spec (iterSince sys.store sys.state.last_seen_seq) false sys.state
    refine ⟨b6, (hmono h0 h6).1, fun hlt => ?_⟩
    obtain ⟨ha, hc⟩ := (hmono h0 h6).2 hlt
    rw [dcfg_cycle_threshold] at h1
    exact ⟨ha, hc, by omega⟩
  · obtain ⟨_, _, _, _, _, b6, _, _, _, _, _, _, _, hmono, _⟩ :=
      cycle_fst_spec [] true sys.state
    refine ⟨b6, (hmono h0 h6).1, fun hlt => ?_⟩
    obtain ⟨ha, hc⟩ := (hmono h0 h6).2 hlt
    rw [dcfg_stagnation_threshold] at h2
    exact ⟨ha, hc, by omega⟩
  · obtain ⟨_, _, _, _, _, _, _, _, _, _, _, _, _, hfeq⟩ :=
      lightTick_fst_spec (iterSince sys.store sys.state.last_seen_seq).length
        sys.state
    rw [clamp_eq_self _ _ _ h0 h6] at hfeq
    refine ⟨?_, Or.inl (le_of_eq hfeq.symm), fun hlt => ?_⟩
    · rw [hfeq]; exact h6
    · rw [hfeq] at hlt; exact absurd hlt (lt_irrefl _)

/-- Witness for C3 at a freshly constructed system over an empty log. -/
theorem step_floor_monotone_witness :
    0 ≤ sys0.state.confidence_floor ∧ sys0.state.confidence_floor ≤ 0.6 ∧
    ((step dcfg sys0).1.state.confidence_floor ≤ 0.6 ∧
    (sys0.state.confidence_floor ≤ (step dcfg sys0).1.state.confidence_floor ∨
      (step dcfg sys0).1.state.confidence_floor =
        (step dcfg sys0).1.state.confidence) ∧
    (sys0.state.confidence_floor < (step dcfg sys0).1.state.confidence_floor →
      (step dcfg sys0).1.state.arousal < sys0.state.arousal ∧
      sys0.state.confidence < (step dcfg sys0).1.state.confidence ∧
      ¬(0 < numNew sys0 ∧ numNew sys0 < 10))) :=
  ⟨by norm_num [sys0, initCore], by norm_num [sys0, initCore],
    step_floor_monotone sys0 (by norm_num [sys0, initCore])
      (by norm_num [sys0, initCore])⟩

/-! ## Lemmas about the store, step dispatch and iteration -/

theorem iterSince_length (m : Store) (c : Nat) :
    (iterSince m c).length = m.length - c := by
  simp [iterSince]

theorem iterSince_eq_nil (m : Store) (c : Nat) (h : m.length ≤ c) :
    iterSince m c = [] := by
  unfold iterSince
  rw [List.drop_eq_nil_of_le h]
  rfl

theorem iterSince_getLast (m : Store) (c : Nat) (h : c < m.length) :
    ∃ r, (iterSince m c).getLast? = some (m.length, r) := by
  have hk : (iterSince m c).length - 1 = m.length - c - 1 := by
    rw [iterSince_length]
  rw [List.getLast?_eq_getElem?, hk]
  have hidx : c + (m.length - c - 1) = m.length - 1 := by omega
  have hlt : m.length - 1 < m.length := by omega
  refine ⟨rowToEvent (m.get ⟨m.length - 1, hlt⟩), ?_⟩
  simp only [iterSince, List.getElem?_map, List.getElem?_enum, List.getElem?_drop,
    hidx]
  rw [List.getElem?_eq_getElem hlt]
  simp only [List.get_eq_getElem, Option.map_some', Option.some.injEq,
    Prod.mk.injEq]
  exact ⟨by omega, trivial⟩

theorem step_cursor (sys : Sys) :
    (step dcfg sys).1.state.last_seen_seq =
      (if sys.state.last_seen_seq < lastSeq sys.store then lastSeq sys.store
       else sys.state.last_seen_seq) := by
  by_cases h : sys.state.last_seen_seq < lastSeq sys.store
  · obtain ⟨r, hr⟩ := iterSince_getLast sys.store sys.state.last_seen_seq h
    simp only [step, hr, if_pos h]
    rfl
  · have hnil : iterSince sys.store sys.state.last_seen_seq = [] :=
      iterSince_eq_nil _ _ (by exact le_of_not_lt h)
    simp only [step, hnil, if_neg h]
    rfl

theorem step_tail (sys : Sys) :
    lastSeq (step dcfg sys).1.store =
      lastSeq sys.store + ((step dcfg sys).2).length := by
  simp only [step]
  split_ifs <;> simp [appendMany, lastSeq]

theorem cycle_snd_ne_nil (cfg : BackgroundConfig) (batch : List (Nat × Event))
    (stag : Bool) (s : BackgroundState) : (cycle cfg batch stag s).2 ≠ [] := by
  simp [cycle]

theorem lightTick_snd_ne_nil (cfg : BackgroundConfig) (n : Nat)
    (s : BackgroundState) : (lightTick cfg n s).2 ≠ [] := by
  simp [lightTick]

theorem step_snd_ne_nil (sys : Sys) : (step dcfg sys).2 ≠ [] := by
  simp only [step]
  split_ifs with h1 h2
  · exact cycle_snd_ne_nil _ _ _ _
  · exact cycle_snd_ne_nil _ _ _ _
  · exact lightTick_snd_ne_nil _ _ _

theorem cycle_kind (batch : List (Nat × Event)) (stag : Bool)
    (s : BackgroundState) :
    emittedKind (cycle dcfg batch stag s).2 = some ("state_update", .vbool stag) :=
  rfl

theorem lightTick_kind (n : Nat) (s : BackgroundState) :
    emittedKind (lightTick dcfg n s).2 = some ("light_tick", .vnone) :=
  rfl

theorem step_not_stagnation (sys : Sys) (h : 0 < numNew sys) :
    emittedKind (step dcfg sys).2 ≠ some ("state_update", .vbool true) := by
  have hnum : numNew sys = (iterSince sys.store sys.state.last_seen_seq).length := rfl
  simp only [step]
  split_ifs with h1 h2
  · rw [cycle_kind]; simp
  · rw [dcfg_stagnation_threshold] at h2; omega
  · rw [lightTick_kind]; simp

theorem iterSince_mem_seq (m : Store) (c : Nat) :
    ∀ p ∈ iterSince m c, c < p.1 := by
  intro p hp
  simp only [iterSince, List.mem_map] at hp
  obtain ⟨q, hq, rfl⟩ := hp
  omega

theorem step_cursor_lt_tail (sys : Sys)
    (h : sys.state.last_seen_seq ≤ lastSeq sys.store) :
    (step dcfg sys).1.state.last_seen_seq < lastSeq (step dcfg sys).1.store := by
  have hlen : 1 ≤ ((step dcfg sys).2).length :=
    List.length_pos.mpr (step_snd_ne_nil sys)
  rw [step_tail, step_cursor]
  split_ifs with hc <;> omega

theorem stepN_cursor_lt_tail (sys : Sys)
    (h : sys.state.last_seen_seq ≤ lastSeq sys.store) :
    ∀ n, 1 ≤ n →
      (stepN dcfg n sys).state.last_seen_seq < lastSeq (stepN dcfg n sys).store := by
  intro n hn
  induction n with
  | zero => omega
  | succ k ih =>
    by_cases hk : 1 ≤ k
    · exact step_cursor_lt_tail _ (le_of_lt (ih hk))
    · have hk0 : k = 0 := by omega
      subst hk0
      exact step_cursor_lt_tail sys h

theorem numNew_pos_of_cursor_lt (sys : Sys)
    (h : sys.state.last_seen_seq < lastSeq sys.store) : 0 < numNew sys := by
  have hlen := iterSince_length sys.store sys.state.last_seen_seq
  unfold numNew
  unfold lastSeq at h
  omega

/-- C5: `step()` dispatch on the new-event count with the default
threshold 10: a count of at least 10 (including exactly 10) runs an
experience cycle; a count of exactly 0 runs a stagnation cycle; a count
strictly between 0 and 10 runs a light tick. -/
theorem step_dispatch (sys : Sys) :
    (10 ≤ numNew sys →
      emittedKind (step dcfg sys).2 = some ("state_update", .vbool false)) ∧
    (numNew sys = 0 →
      emittedKind (step dcfg sys).2 = some ("state_update", .vbool true)) ∧
    (0 < numNew sys → numNew sys < 10 →
      emittedKind (step dcfg sys).2 = some ("light_tick", .vnone)) := by
  have hnum : numNew sys = (iterSince sys.store sys.state.last_seen_seq).length :=
    rfl
  simp only [step]
  split_ifs with h1 h2
  · rw [dcfg_cycle_threshold] at h1
    exact ⟨fun _ => cycle_kind _ _ _, fun h => by omega, fun h h' => by omega⟩
  · rw [dcfg_cycle_threshold] at h1
    rw [dcfg_stagnation_threshold] at h2
    exact ⟨fun h => by omega, fun _ => cycle_kind _ _ _, fun h h' => by omega⟩
  · rw [dcfg_cycle_threshold] at h1
    rw [dcfg_stagnation_threshold] at h2
    exact ⟨fun h => by omega, fun h => by omega, fun _ _ => lightTick_kind _ _⟩

/-- Witness for C5: a batch of exactly 10 events runs an experience cycle;
an empty backlog runs a stagnation cycle; a batch of 5 runs a light tick. -/
theorem step_dispatch_witness :
    (10 ≤ numNew (sysOver 10) ∧
      emittedKind (step dcfg (sysOver 10)).2 = some ("state_update", .vbool false)) ∧
    (numNew sys0 = 0 ∧
      emittedKind (step dcfg sys0).2 = some ("state_update", .vbool true)) ∧
    (0 < numNew (sysOver 5) ∧ numNew (sysOver 5) < 10 ∧
      emittedKind (step dcfg (sysOver 5)).2 = some ("light_tick", .vnone)) := by
  have h10 : numNew (sysOver 10) = 10 := by
    simp [numNew, sysOver, iterSince, storeOfLen]
  have h0 : numNew sys0 = 0 := by
    simp [numNew, sys0, iterSince, initCore, lastSeq]
  have h5 : numNew (sysOver 5) = 5 := by
    simp [numNew, sysOver, iterSince, storeOfLen]
  refine ⟨⟨by omega, (step_dispatch (sysOver 10)).1 (by omega)⟩,
    ⟨h0, (step_dispatch sys0).2.1 h0⟩,
    ⟨by omega, by omega, (step_dispatch (sysOver 5)).2.2 (by omega) (by omega)⟩⟩

/-- C10: every completed `step()` emits at least one event; the cursor
stored during the call never exceeds the pre-call tail, so every appended
event's sequence number is strictly greater than the stored cursor; the
post-step tail strictly exceeds the stored cursor; hence in a run where
only the regulator appends, every step after the first sees at least one
new event and the stagnation branch is never taken again. -/
theorem step_always_emits (sys : Sys)
    (h : sys.state.last_seen_seq ≤ lastSeq sys.store) :
    (step dcfg sys).2 ≠ [] ∧
    (step dcfg sys).1.state.last_seen_seq ≤ lastSeq sys.store ∧
    (∀ p ∈ iterSince (step dcfg sys).1.store (lastSeq sys.store),
      (step dcfg sys).1.state.last_seen_seq < p.1) ∧
    (step dcfg sys).1.state.last_seen_seq < lastSeq (step dcfg sys).1.store ∧
    (∀ n, 1 ≤ n →
      0 < numNew (stepN dcfg n sys) ∧
      emittedKind (step dcfg (stepN dcfg n sys)).2 ≠
        some ("state_update", .vbool true)) := by
  have hc : (step dcfg sys).1.state.last_seen_seq ≤ lastSeq sys.store := by
    rw [step_cursor]
    split_ifs with hlt <;> omega
  refine ⟨step_snd_ne_nil sys, hc, ?_, step_cursor_lt_tail sys h, ?_⟩
  · intro p hp
    exact lt_of_le_of_lt hc (iterSince_mem_seq _ _ p hp)
  · intro n hn
    have hpos : 0 < numNew (stepN dcfg n sys) :=
      numNew_pos_of_cursor_lt _ (stepN_cursor_lt_tail sys h n hn)
    exact ⟨hpos, step_not_stagnation _ hpos⟩

/-- Witness for C10 at a freshly constructed system over an empty log. -/
theorem step_always_emits_witness :
    sys0.state.last_seen_seq ≤ lastSeq sys0.store ∧
    ((step dcfg sys0).2 ≠ [] ∧
    (step dcfg sys0).1.state.last_seen_seq ≤ lastSeq sys0.store ∧
    (∀ p ∈ iterSince (step dcfg sys0).1.store (lastSeq sys0.store),
      (step dcfg sys0).1.state.last_seen_seq < p.1) ∧
    (step dcfg sys0).1.state.last_seen_seq < lastSeq (step dcfg sys0).1.store ∧
    (∀ n, 1 ≤ n →
      0 < numNew (stepN dcfg n sys0) ∧
      emittedKind (step dcfg (stepN dcfg n sys0)).2 ≠
        some ("state_update", .vbool true))) :=
  ⟨le_refl _, step_always_emits sys0 (le_refl _)⟩

/-! ## Lemmas for the high-arousal warning (C4) -/

theorem hasWarningHigh_cons (e : Event) (l : List Event)
    (h : e.name ≠ "warning_high_arousal_persistence") :
    hasWarningHigh (e :: l) ↔ hasWarningHigh l := by
  unfold hasWarningHigh
  constructor
  · rintro ⟨a, ha, hname⟩
    rcases List.mem_cons.mp ha with rfl | ha'
    · exact absurd hname h
    · exact ⟨a, ha', hname⟩
  · rintro ⟨a, ha, hname⟩
    exact ⟨a, List.mem_cons_of_mem _ ha, hname⟩

theorem cycle_warning_iff (batch : List (Nat × Event)) (stag : Bool)
    (s : BackgroundState) :
    (hasWarningHigh (cycle dcfg batch stag s).2 ↔
      6 ≤ (cycle dcfg batch stag s).1.consecutive_high_arousal_cycles) := by
  simp only [cycle, burnoutGuard_fst]
  rw [hasWarningHigh_cons _ _ (by simp [internalEvent])]
  rw [burnoutGuard_warning_iff dcfg s, dcfg_high_limit]

theorem traceStreak_high (ins : Nat → List (Nat × Event) × Bool)
    (s0 : BackgroundState) (n : Nat)
    (hh : (traceState dcfg ins s0 (n + 1)).arousal ≥ 0.85) :
    (traceState dcfg ins s0 (n + 1)).consecutive_high_arousal_cycles =
      (traceState dcfg ins s0 n).consecutive_high_arousal_cycles + 1 := by
  obtain ⟨_, _, _, _, _, _, _, _, _, _, _, _, _, _, hhigh⟩ :=
    cycle_fst_spec (ins n).1 (ins n).2 (traceState dcfg ins s0 n)
  have heq : traceState dcfg ins s0 (n + 1) =
      (cycle dcfg (ins n).1 (ins n).2 (traceState dcfg ins s0 n)).1 := rfl
  rw [heq] at hh ⊢
  rw [hhigh, if_pos hh]

theorem traceStreak_low (ins : Nat → List (Nat × Event) × Bool)
    (s0 : BackgroundState) (n : Nat)
    (hh : ¬(traceState dcfg ins s0 (n + 1)).arousal ≥ 0.85) :
    (traceState dcfg ins s0 (n + 1)).consecutive_high_arousal_cycles = 0 := by
  obtain ⟨_, _, _, _, _, _, _, _, _, _, _, _, _, _, hhigh⟩ :=
    cycle_fst_spec (ins n).1 (ins n).2 (traceState dcfg ins s0 n)
  have heq : traceState dcfg ins s0 (n + 1) =
      (cycle dcfg (ins n).1 (ins n).2 (traceState dcfg ins s0 n)).1 := rfl
  rw [heq] at hh ⊢
  rw [hhigh, if_neg hh]

theorem streak_ge_iff (high : Nat → Prop) (f : Nat → Nat) (h0 : f 0 = 0)
    (hrecT : ∀ n, high n → f (n + 1) = f n + 1)
    (hrecF : ∀ n, ¬high n → f (n + 1) = 0) :
    ∀ n k, k ≤ f (n + 1) ↔
      (k ≤ n + 1 ∧ ∀ j, n + 1 - k ≤ j → j ≤ n → high j) := by
  intro n
  induction n with
  | zero =>
    intro k
    by_cases hh : high 0
    · rw [hrecT 0 hh, h0]
      constructor
      · intro hk
        refine ⟨hk, fun j hj1 hj2 => ?_⟩
        have hj0 : j = 0 := by omega
        subst hj0
        exact hh
      · rintro ⟨hk, _⟩
        exact hk
    · rw [hrecF 0 hh]
      constructor
      · intro hk
        refine ⟨by omega, fun j hj1 hj2 => ?_⟩
        exact absurd hj1 (by omega)
      · rintro ⟨hk, hall⟩
        by_cases hk0 : k = 0
        · omega
        · exact absurd (hall 0 (by omega) (le_refl 0)) hh
  | succ m ih =>
    intro k
    by_cases hh : high (m + 1)
    · rw [hrecT (m + 1) hh]
      constructor
      · intro hk
        by_cases hk0 : k = 0
        · subst hk0
          exact ⟨by omega, fun j hj1 hj2 => absurd hj1 (by omega)⟩
        · have h1 : 1 ≤ k := by omega
          have hk' : k - 1 ≤ f (m + 1) := by omega
          obtain ⟨hb, hall⟩ := (ih (k - 1)).mp hk'
          refine ⟨by omega, fun j hj1 hj2 => ?_⟩
          by_cases hj : j = m + 1
          · subst hj; exact hh
          · exact hall j (by omega) (by omega)
      · rintro ⟨hk, hall⟩
        by_cases hk0 : k = 0
        · omega
        · have h1 : 1 ≤ k := by omega
          have hle : k - 1 ≤ f (m + 1) := by
            refine (ih (k - 1)).mpr ⟨by omega, fun j hj1 hj2 => ?_⟩
            exact hall j (by omega) (by omega)
          omega
    · rw [hrecF (m + 1) hh]
      constructor
      · intro hk
        refine ⟨by omega, fun j hj1 hj2 => ?_⟩
        exact absurd hj1 (by omega)
      · rintro ⟨hk, hall⟩
        by_cases hk0 : k = 0
        · omega
        · exact absurd (hall (m + 1) (by omega) (le_refl _)) hh

/-- C4: in a run of full cycles starting with a zero streak counter, the
`warning_high_arousal_persistence` System event is emitted by the `n`-th
cycle if and only if the 6 most recent cycles (including the `n`-th) all
ended with arousal ≥ 0.85; the streak counter is incremented, not reset,
on every high cycle (so the warning re-fires while the streak persists),
and it resets to 0 on the first cycle whose end-of-cycle arousal is below
0.85. -/
theorem warning_high_arousal_iff (ins : Nat → List (Nat × Event) × Bool)
    (s0 : BackgroundState)
    (h0 : s0.consecutive_high_arousal_cycles = 0) (n : Nat) :
    (hasWarningHigh (traceEmitted dcfg ins s0 n) ↔
      (5 ≤ n ∧ ∀ j, n - 5 ≤ j → j ≤ n → highAt dcfg ins s0 j)) ∧
    (highAt dcfg ins s0 n →
      (traceState dcfg ins s0 (n + 1)).consecutive_high_arousal_cycles =
        (traceState dcfg ins s0 n).consecutive_high_arousal_cycles + 1) ∧
    (¬highAt dcfg ins s0 n →
      (traceState dcfg ins s0 (n + 1)).consecutive_high_arousal_cycles = 0) := by
  have key := streak_ge_iff
    (fun m => (traceState dcfg ins s0 (m + 1)).arousal ≥ 0.85)
    (fun m => (traceState dcfg ins s0 m).consecutive_high_arousal_cycles)
    h0 (fun m hm => traceStreak_high ins s0 m hm)
    (fun m hm => traceStreak_low ins s0 m hm) n 6
  refine ⟨?_, fun hh => traceStreak_high ins s0 n hh,
    fun hh => traceStreak_low ins s0 n hh⟩
  refine Iff.trans
    (cycle_warning_iff (ins n).1 (ins n).2 (traceState dcfg ins s0 n)) ?_
  refine Iff.trans key ?_
  constructor
  · rintro ⟨hb, hall⟩
    exact ⟨by omega, fun j hj1 hj2 => hall j (by omega) hj2⟩
  · rintro ⟨hb, hall⟩
    exact ⟨by omega, fun j hj1 hj2 => hall j (by omega) hj2⟩

/-- Witness for C4 at a zero-streak start over stagnation cycles. -/
theorem warning_high_arousal_iff_witness :
    (initCore []).consecutive_high_arousal_cycles = 0 ∧
    ((hasWarningHigh (traceEmitted dcfg insStag (initCore []) 0) ↔
      (5 ≤ 0 ∧ ∀ j, 0 - 5 ≤ j → j ≤ 0 → highAt dcfg insStag (initCore []) j)) ∧
    (highAt dcfg insStag (initCore []) 0 →
      (traceState dcfg insStag (initCore []) 1).consecutive_high_arousal_cycles =
        (traceState dcfg insStag (initCore []) 0).consecutive_high_arousal_cycles
          + 1) ∧
    (¬highAt dcfg insStag (initCore []) 0 →
      (traceState dcfg insStag (initCore []) 1).consecutive_high_arousal_cycles =
        0)) :=
  ⟨rfl, warning_high_arousal_iff insStag (initCore []) rfl 0⟩

/-! ## Lemmas for the boundary detector (C7) -/

theorem boundaryObserve_run (p : Int × Int) :
    ∀ (es : List Event) (st : BoundaryState),
      (∀ e ∈ es, qualifiesAt e p) →
      (boundaryObserve 2 st es).1.hits p = st.hits p + es.length ∧
      (boundaryObserve 2 st es).2 =
        (if st.hits p < 2 ∧ 2 ≤ st.hits p + es.length then [boundaryEvent p 2]
         else []) := by
  intro es
  induction es with
  | nil =>
    intro st h
    refine ⟨rfl, ?_⟩
    simp only [List.length_nil]
    rw [if_neg (by omega)]
    rfl
  | cons e es ih =>
    intro st h
    obtain ⟨ht, hn, hp⟩ := h e (List.mem_cons_self e es)
    simp only [boundaryObserve, if_pos (And.intro ht hn), hp, List.length_cons]
    obtain ⟨ih1, ih2⟩ :=
      ih ⟨fun q => if q = p then st.hits p + 1 else st.hits q⟩
        (fun e' he' => h e' (List.mem_cons_of_mem _ he'))
    have hst : (BoundaryState.mk
        fun q => if q = p then st.hits p + 1 else st.hits q).hits p =
        st.hits p + 1 := by simp
    rw [hst] at ih1 ih2
    constructor
    · by_cases hn2 : st.hits p + 1 = 2
      · rw [if_pos hn2]
        rw [ih1]
        omega
      · rw [if_neg hn2]
        rw [ih1]
        omega
    · by_cases hn2 : st.hits p + 1 = 2
      · rw [if_pos hn2]
        rw [ih2, if_neg (by omega)]
        rw [hn2, if_pos (by omega)]
      · rw [if_neg hn2]
        rw [ih2]
        by_cases hcond : st.hits p + 1 < 2 ∧ 2 ≤ st.hits p + 1 + es.length
        · rw [if_pos hcond, if_pos (by omega)]
        · rw [if_neg hcond, if_neg (by omega)]

/-- C7: with threshold 2 and a position the detector has not yet counted,
processing any run of Internal `prediction_error` events carrying that
same observed position emits exactly one `boundary_detected` event — it
appears exactly when the run reaches length 2 (hit count equals the
threshold) and never again — while the hit count keeps incrementing to the
run's length. -/
theorem boundary_fires_once (p : Int × Int) (st : BoundaryState)
    (es : List Event) (hq : ∀ e ∈ es, qualifiesAt e p)
    (hfresh : st.hits p = 0) :
    (boundaryObserve 2 st es).1.hits p = es.length ∧
    (boundaryObserve 2 st es).2 =
      (if 2 ≤ es.length then [boundaryEvent p 2] else []) ∧
    (∀ k, (boundaryObserve 2 st (es.take k)).2 =
      (if 2 ≤ (es.take k).length then [boundaryEvent p 2] else [])) := by
  obtain ⟨h1, h2⟩ := boundaryObserve_run p es st hq
  rw [hfresh] at h1 h2
  refine ⟨by rw [h1]; omega, ?_, ?_⟩
  · rw [h2]
    by_cases hc : 2 ≤ es.length
    · rw [if_pos (by omega), if_pos hc]
    · rw [if_neg (by omega), if_neg hc]
  · intro k
    obtain ⟨_, hk2⟩ :=
      boundaryObserve_run p (es.take k) st
        (fun e he => hq e (List.mem_of_mem_take he))
    rw [hfresh] at hk2
    rw [hk2]
    by_cases hc : 2 ≤ (es.take k).length
    · rw [if_pos (by omega), if_pos hc]
    · rw [if_neg (by omega), if_neg hc]

/-- Witness for C7: three `prediction_error` events at `(3, 4)` on a fresh
detector yield hit count 3 and exactly one `boundary_detected`. -/
theorem boundary_fires_once_witness :
    (∀ e ∈ probes3, qualifiesAt e (3, 4)) ∧
    freshBoundary.hits (3, 4) = 0 ∧
    ((boundaryObserve 2 freshBoundary probes3).1.hits (3, 4) = probes3.length ∧
    (boundaryObserve 2 freshBoundary probes3).2 =
      (if 2 ≤ probes3.length then [boundaryEvent (3, 4) 2] else []) ∧
    (∀ k, (boundaryObserve 2 freshBoundary (probes3.take k)).2 =
      (if 2 ≤ (probes3.take k).length then [boundaryEvent (3, 4) 2] else []))) := by
  have hq : ∀ e ∈ probes3, qualifiesAt e (3, 4) := by
    intro e he
    simp only [probes3, List.mem_cons, List.not_mem_nil, or_false] at he
    rcases he with rfl | rfl | rfl <;> exact ⟨rfl, rfl, rfl⟩
  exact ⟨hq, rfl, boundary_fires_once (3, 4) freshBoundary probes3 hq rfl⟩

/-- C8 (code evaluated at the failing input): with the default learning
rate 0.05, two `prediction_error` events with error 1.0 at position
`(0, 0)` drive the score to −0.10; the following `expectation_confirmed`
at the same position emits a `preference_updated` event with
confidence = min(1, −0.05) = −0.05, which is negative — outside [0, 1]. -/
theorem preference_negative_confidence :
    ((preferenceObserve 0.05 freshPreference
        [errEvent, errEvent, confirmEvent]).2.map Event.confidence) =
      [some 0, some 0, some (-0.05)] ∧ ((-0.05 : ℚ) < 0) := by
  have hk1 : keyFromEvent errEvent = some "pos:0,0" := rfl
  have hk2 : keyFromEvent confirmEvent = some "pos:0,0" := rfl
  have hf : floatOf (dictGet errEvent.payload "error" (.vfloat 0)) = 1 := rfl
  have ht1 : errEvent.type = EventType.internal := rfl
  have ht2 : confirmEvent.type = EventType.internal := rfl
  have hn1 : errEvent.name = "prediction_error" := rfl
  have hn2 : confirmEvent.name = "expectation_confirmed" := rfl
  have hne1 : ("prediction_error" = "expectation_confirmed") = False := by simp
  have heq1 : ("expectation_confirmed" = "expectation_confirmed") = True := by simp
  have heq2 : ("prediction_error" = "prediction_error") = True := by simp
  have heqt : (EventType.internal = EventType.internal) = True := by simp
  constructor
  · simp only [preferenceObserve, hk1, hk2, hf, ht1, ht2, hn1, hn2, hne1, heq1,
      heq2, heqt, if_true, if_false, freshPreference, preferenceEvent,
      internalEvent]
    norm_num
  · norm_num

/-- C6 (as specified): a core constructed over an existing log starts from
the fresh default regulatory vector with the cursor at the log's current
tail, and sees zero pending events — pre-existing history is never
replayed. The shipped constructor cannot run (see the doc comment on
`initCore`), so this settles the specified behavior, not the shipped code. -/
theorem initCore_fresh (m : Store) :
    (initCore m).arousal = 0.15 ∧ (initCore m).valence = 0.0 ∧
    (initCore m).confidence = 0.10 ∧ (initCore m).confidence_floor = 0.05 ∧
    (initCore m).uncertainty = 0.85 ∧ (initCore m).curiosity = 0.25 ∧
    (initCore m).cycles = 0 ∧
    (initCore m).consecutive_high_arousal_cycles = 0 ∧
    (initCore m).last_seen_seq = lastSeq m ∧
    iterSince m (initCore m).last_seen_seq = [] := by
  refine ⟨rfl, rfl, rfl, rfl, rfl, rfl, rfl, rfl, rfl, ?_⟩
  exact iterSince_eq_nil m _ (le_refl _)

/-! ## Round trip through the store (C9) -/

theorem rowToEvent_eventToRow (e : Event) (h : tupleFreeKVs e.payload = true) :
    rowToEvent (eventToRow e) = e := by
  have htype : EventType.ofValue e.type.value = e.type := by
    cases e.type <;> rfl
  have hpayload : jsonPayload (pyToJson (.vdict e.payload)) = e.payload := by
    simp only [pyToJson, jsonPayload]
    exact jsonKVsToPy_pyKVsToJson e.payload h
  cases e with
  | mk t src nm pl id pid cf =>
    dsimp only at htype hpayload
    simp only [rowToEvent, eventToRow]
    rw [htype, hpayload]

/-- C9 (amended): an appended event whose payload contains no tuple value
is reproduced exactly — id, type, source, name, payload, parent_id and
confidence — when read back through `iter_since` (at its assigned sequence
number, the old tail + 1) or through `recent`. -/
theorem roundtrip_exact (m : Store) (e : Event)
    (h : tupleFreeKVs e.payload = true) :
    iterSince (appendEvent m e) (lastSeq m) = [(m.length + 1, e)] ∧
    recentEvents (appendEvent m e) 1 = [e] := by
  have hre := rowToEvent_eventToRow e h
  constructor
  · unfold iterSince appendEvent lastSeq
    rw [List.drop_left]
    simp [hre]
  · unfold recentEvents appendEvent
    have hlen : (m ++ [eventToRow e]).length - 1 = m.length := by simp
    rw [hlen]
    have hdrop : (m ++ [eventToRow e]).drop m.length = [eventToRow e] :=
      List.drop_left m [eventToRow e]
    rw [hdrop]
    simp [hre]

/-- Witness for C9's amended round trip at a tuple-free payload. -/
theorem roundtrip_exact_witness :
    tupleFreeKVs probeEvent.payload = true ∧
    (iterSince (appendEvent [] probeEvent) (lastSeq []) =
      [(List.length ([] : Store) + 1, probeEvent)] ∧
    recentEvents (appendEvent [] probeEvent) 1 = [probeEvent]) :=
  ⟨rfl, roundtrip_exact [] probeEvent rfl⟩

/-- C9 counterexample: a payload holding the tuple `(3, 4)` is accepted by
the store without a serialization error, but reads back as the list
`[3, 4]` — so the read-back event is not equal to the appended one in its
payload, refuting the exact round trip as claimed. -/
theorem roundtrip_tuple_counterexample :
    ((iterSince (appendEvent [] tupleEvent) 0).map (fun p => p.2.payload)) =
      [[("p", PyVal.vlist [.vint 3, .vint 4])]] ∧
    tupleEvent.payload = [("p", PyVal.vtuple [.vint 3, .vint 4])] ∧
    PyVal.vlist [.vint 3, .vint 4] ≠ PyVal.vtuple [.vint 3, .vint 4] := by
  refine ⟨rfl, rfl, fun hx => ?_⟩
  cases hx

end SandysLaw
